import Mathlib

/-!
Verification development for the BLE central controller in `src/main.c`
(Zephyr application driving a PLAYBULB CANDLE II peripheral): the
advertisement filter, the chained GATT discovery callback, the connection
lifecycle callbacks, the notification and read callbacks, the button-driven
command dispatcher and the main control loop, shallowly embedded as pure
Lean functions over explicit state, with the stack's responses passed in as
parameters.
-/

namespace PlaybulbBle

/-! ## Constants from main.c and the Zephyr headers it uses -/

def NAME_LEN : Nat := 30

/-- Byte values of the C string literal PERIPHERAL_NAME in main.c. -/
def PERIPHERAL_NAME : List Nat := "PLAYBULB CANDLE II".toList.map Char.toNat

def COLOR_COUNT : Nat := 4
def COLOR_WHITE : Nat := 0x000000FF
def COLOR_RED : Nat := 0x0000FF00
def COLOR_GREEN : Nat := 0x00FF0000
def COLOR_BLUE : Nat := 0xFF000000

/-- 16-bit UUID of the custom color-setting characteristic (main.c). -/
def BT_UUID_COLOR_SETTING : Nat := 0xFFFC
/-- 16-bit UUID of the standard Battery Level characteristic (Zephyr uuid.h). -/
def BT_UUID_BAS_BATTERY_LEVEL : Nat := 0x2A19
/-- 16-bit UUID of the Client Characteristic Configuration descriptor. -/
def BT_UUID_GATT_CCC : Nat := 0x2902

/-- Advertisement report kinds used by device_found (Zephyr hci_types.h). -/
def BT_GAP_ADV_TYPE_ADV_IND : Nat := 0x00
def BT_GAP_ADV_TYPE_SCAN_RSP : Nat := 0x04

/-- AD data type codes for the two device-name fields (Zephyr gap.h). -/
def BT_DATA_NAME_SHORTENED : Nat := 0x08
def BT_DATA_NAME_COMPLETE : Nat := 0x09

/-! ## C string helpers

A C char buffer is modelled as the list of bytes written into it; the
buffer is zeroed beforehand (main.c memsets the struct), so reading past
the end of the list yields 0, which `List.headD`/`List.getD` with default
0 capture. -/

/-- Length of a C string: bytes before the first NUL. -/
def strlen (s : List Nat) : Nat := (s.takeWhile (fun c => c ≠ 0)).length

/-- C strncmp on zero-extended byte buffers: compare up to n bytes, stopping
at the first difference or at a NUL in both strings. -/
def strncmp : List Nat → List Nat → Nat → Int
  | _, _, 0 => 0
  | s1, s2, Nat.succ n =>
    let c1 := s1.headD 0
    let c2 := s2.headD 0
    if c1 ≠ c2 then (c1 : Int) - (c2 : Int)
    else if c1 = 0 then 0
    else strncmp s1.tail s2.tail n

/-! ## Advertisement filter: data_cb and device_found -/

/-- One AD structure handed to the bt_data_parse callback. -/
structure BtData where
  ty : Nat
  data : List Nat
deriving DecidableEq

/-- custom_adv_data_t of main.c: extracted device name and its length. -/
structure CustomAdvData where
  length : Nat
  name : List Nat
deriving DecidableEq

/-- The two switch cases data_cb acts on. -/
def is_name_field (d : BtData) : Bool :=
  d.ty = BT_DATA_NAME_SHORTENED ∨ d.ty = BT_DATA_NAME_COMPLETE

/-- data_cb of main.c: on a shortened or complete name field, copy at most
NAME_LEN - 1 bytes and stop parsing (return false); otherwise keep the
accumulator and continue (return true). -/
def data_cb (d : BtData) (s : CustomAdvData) : Bool × CustomAdvData :=
  if is_name_field d then
    let len := min d.data.length (NAME_LEN - 1)
    (false, { length := len, name := d.data.take len })
  else
    (true, s)

/-- bt_data_parse: fold data_cb over the record's AD structures until the
callback asks to stop. -/
def bt_data_parse : List BtData → CustomAdvData → CustomAdvData
  | [], s => s
  | d :: rest, s =>
    let r := data_cb d s
    if r.1 then bt_data_parse rest r.2 else r.2

/-- What device_found decides for one advertisement report: ignore it, or
declare a match (stop scanning and issue a connect request). -/
inductive ScanAction where
  | ignore
  | matchConnect
deriving DecidableEq

/-- device_found of main.c. `hasConn` is whether default_conn is non-NULL
when the report arrives. The stack's responses to the stop-scan and
connect calls that follow a match are environment outcomes and not part
of the match decision. -/
def device_found (hasConn : Bool) (ty : Nat) (ad : List BtData) : ScanAction :=
  if hasConn then .ignore
  else if ty ≠ BT_GAP_ADV_TYPE_ADV_IND ∧ ty ≠ BT_GAP_ADV_TYPE_SCAN_RSP then .ignore
  else
    let d := bt_data_parse ad ⟨0, []⟩
    if d.length = 0 then .ignore
    else if strncmp PERIPHERAL_NAME d.name (strlen PERIPHERAL_NAME) = 0 then .matchConnect
    else .ignore

/-! ## GATT discovery state and the discover_func callback -/

/-- Discovery kinds used here, with their values from Zephyr gatt.h's
discover-type enum (0 is what memset leaves behind on reset). -/
def BT_GATT_DISCOVER_CHARACTERISTIC : Nat := 3
def BT_GATT_DISCOVER_DESCRIPTOR : Nat := 4

/-- CCC value written when subscribing for notifications. -/
def BT_GATT_CCC_NOTIFY : Nat := 0x0001

/-- errno value bt_gatt_subscribe returns when already subscribed
(Zephyr newlib errno). Only its identity matters below. -/
def EALREADY : Int := 120

/-- HCI reason code BT_HCI_ERR_REMOTE_USER_TERM_CONN. -/
def BT_HCI_ERR_REMOTE_USER_TERM_CONN : Nat := 0x13

/-- bt_gatt_discover_params as main.c uses them. discover_params.uuid always
points at the global discover_uuid, so the two are one field here. -/
structure DiscoverParams where
  uuid : Nat
  start_handle : Nat
  end_handle : Nat
  ty : Nat
deriving DecidableEq

/-- bt_gatt_subscribe_params fields main.c touches. -/
structure SubscribeParams where
  value_handle : Nat
  ccc_handle : Nat
  value : Nat
  notifySet : Bool
deriving DecidableEq

/-- A discovered attribute as discover_func sees it: its own handle and
what bt_gatt_attr_value_handle returns for it. -/
structure GattAttr where
  handle : Nat
  value_handle : Nat
deriving DecidableEq

/-- The mutable globals of main.c that the callbacks share. -/
structure AppState where
  default_conn : Option Nat
  color_attr_handle : Nat
  battery_level_value_handle : Nat
  current_color_index : Nat
  dp : DiscoverParams
  sp : SubscribeParams
deriving DecidableEq

/-- The C globals' initial values: zeroed handles and params, NULL
connection, color index 0. -/
def initial_state : AppState :=
  { default_conn := none
    color_attr_handle := 0
    battery_level_value_handle := 0
    current_color_index := 0
    dp := ⟨0, 0, 0, 0⟩
    sp := ⟨0, 0, 0, false⟩ }

/-- Requests discover_func can hand to the GATT layer. -/
inductive GattRequest where
  | discover (p : DiscoverParams)
  | subscribe (p : SubscribeParams)
deriving DecidableEq

/-- Return value of a GATT iteration callback. -/
inductive GattIter where
  | stop
  | cont
deriving DecidableEq

/-- Everything one run of discover_func does: the new globals, the GATT
requests it issued, whether it gave sem_discovered, which failures it
logged, and its return value. -/
structure DiscoverOutcome where
  st : AppState
  requests : List GattRequest
  discoveredSignal : Bool
  discoverFailureLogged : Bool
  subscribeFailureLogged : Bool
  iter : GattIter
deriving DecidableEq

/-- discover_func of main.c. `attr = none` is the end-of-range callback.
`discoverErr` and `subscribeErr` are the stack's immediate results for the
bt_gatt_discover and bt_gatt_subscribe calls the branch makes (they only
select log messages). The branch taken is decided by the current target
UUID in discover_params, exactly as the C's bt_uuid_cmp chain does. -/
def discover_func (st : AppState) (attr : Option GattAttr)
    (discoverErr subscribeErr : Int) : DiscoverOutcome :=
  match attr with
  | none =>
    { st := { st with dp := ⟨0, 0, 0, 0⟩ }
      requests := []
      discoveredSignal := false
      discoverFailureLogged := false
      subscribeFailureLogged := false
      iter := .stop }
  | some attr =>
    if st.dp.uuid = BT_UUID_COLOR_SETTING then
      let st1 := { st with
        color_attr_handle := attr.value_handle
        dp := { uuid := BT_UUID_BAS_BATTERY_LEVEL
                start_handle := attr.handle + 1
                end_handle := st.dp.end_handle
                ty := BT_GATT_DISCOVER_CHARACTERISTIC } }
      { st := st1
        requests := [.discover st1.dp]
        discoveredSignal := false
        discoverFailureLogged := discoverErr ≠ 0
        subscribeFailureLogged := false
        iter := .stop }
    else if st.dp.uuid = BT_UUID_BAS_BATTERY_LEVEL then
      let st1 := { st with
        battery_level_value_handle := attr.value_handle
        dp := { uuid := BT_UUID_GATT_CCC
                start_handle := attr.handle + 2
                end_handle := st.dp.end_handle
                ty := BT_GATT_DISCOVER_DESCRIPTOR }
        sp := { st.sp with value_handle := attr.value_handle } }
      { st := st1
        requests := [.discover st1.dp]
        discoveredSignal := false
        discoverFailureLogged := discoverErr ≠ 0
        subscribeFailureLogged := false
        iter := .stop }
    else if st.dp.uuid = BT_UUID_GATT_CCC then
      let sp1 := { st.sp with
        notifySet := true
        value := BT_GATT_CCC_NOTIFY
        ccc_handle := attr.handle }
      { st := { st with sp := sp1 }
        requests := [.subscribe sp1]
        discoveredSignal := true
        discoverFailureLogged := false
        subscribeFailureLogged := subscribeErr ≠ 0 ∧ subscribeErr ≠ -EALREADY
        iter := .stop }
    else
      { st := st
        requests := []
        discoveredSignal := false
        discoverFailureLogged := false
        subscribeFailureLogged := false
        iter := .stop }

/-! ## Notification and read callbacks -/

/-- Everything one run of notify_func does. `dereffed` records whether the
code read the payload byte at all; `surfaced` is the battery byte it
printed, none when the read is not well-defined (no byte to read). -/
structure NotifyOutcome where
  sp : SubscribeParams
  iter : GattIter
  dereffed : Bool
  surfaced : Option Nat
deriving DecidableEq

/-- notify_func of main.c. `payload = none` models a NULL data pointer (the
stack's unsubscribed indication); `some l` a delivered payload of bytes l.
On NULL the code clears params.value_handle and stops the subscription
without touching the payload; otherwise it dereferences the first byte
and continues. -/
def notify_func (sp : SubscribeParams) (payload : Option (List Nat))
    (length : Nat) : NotifyOutcome :=
  match payload with
  | none => ⟨{ sp with value_handle := 0 }, .stop, false, none⟩
  | some l => ⟨sp, .cont, true, l.head?⟩

/-- Everything one run of battery_read_func does; fields as in
NotifyOutcome. -/
structure ReadOutcome where
  iter : GattIter
  dereffed : Bool
  surfaced : Option Nat
deriving DecidableEq

/-- battery_read_func of main.c: it dereferences the payload pointer
unconditionally — no branch looks at `err` or checks `payload` for NULL —
so the byte read is well-defined only when the payload carries at least
one byte. -/
def battery_read_func (err : Nat) (payload : Option (List Nat))
    (length : Nat) : ReadOutcome :=
  ⟨.stop, true, payload.bind List.head?⟩

/-! ## Connection lifecycle callbacks -/

/-- Everything one run of the connected callback (or of
remote_info_available_cb) does: the new value of default_conn, whether
sem_connected was given, and whether scanning was restarted. -/
structure ConnectedOutcome where
  default_conn : Option Nat
  connectedSignal : Bool
  scanRestarted : Bool
deriving DecidableEq

/-- connected of main.c. On a failure status it unrefs default_conn, NULLs
it and restarts scanning before ever comparing `conn` against
default_conn; an unrelated successful connection is ignored; the related
success only logs. No branch gives sem_connected. -/
def connected (default_conn : Option Nat) (conn : Nat) (err : Nat) :
    ConnectedOutcome :=
  if err ≠ 0 then ⟨none, false, true⟩
  else if some conn ≠ default_conn then ⟨default_conn, false, false⟩
  else ⟨default_conn, false, false⟩

/-- remote_info_available_cb of main.c: gives sem_connected unconditionally,
for whatever connection the event reports. -/
def remote_info_available_cb (default_conn : Option Nat) (conn : Nat) :
    ConnectedOutcome :=
  ⟨default_conn, true, false⟩

/-- Everything one run of the disconnected callback does. -/
structure DisconnectOutcome where
  st : AppState
  disconnectedSignal : Bool
deriving DecidableEq

/-- disconnected of main.c: an event for a connection other than
default_conn returns at once; for the active one it unrefs the
connection, NULLs default_conn and gives sem_disconnected. Nothing else
in the function is written: the resolved handles and the discovery and
subscribe parameters are left as they were. -/
def disconnected (st : AppState) (conn : Nat) (reason : Nat) :
    DisconnectOutcome :=
  if some conn ≠ st.default_conn then ⟨st, false⟩
  else ⟨{ st with default_conn := none }, true⟩

/-! ## Command dispatcher: button_state_changed -/

/-- ColorSetting table entry (color_setting_t of main.c). -/
structure ColorSetting where
  color_value : Nat
  color_name : String
deriving DecidableEq

/-- color_array of main.c. -/
def color_array : List ColorSetting :=
  [⟨COLOR_WHITE, "White"⟩, ⟨COLOR_RED, "Red"⟩,
   ⟨COLOR_GREEN, "Green"⟩, ⟨COLOR_BLUE, "Blue"⟩]

/-- DK button masks (dk_buttons_and_leds.h) with main.c's assignments. -/
def BUTTON_COLOR : Nat := 1
def BUTTON_BATTERY_LEVEL : Nat := 2
def BUTTON_CONN_PARAMS : Nat := 4
def BUTTON_DISCONNECT : Nat := 8

/-- Requests the button handler hands to the stack. The connection argument
is Option Nat: none stands for the NULL pointer default_conn holds when
no connection is active. -/
inductive StackRequest where
  | writeWithoutResponse (conn : Option Nat) (handle : Nat) (value : Nat)
  | gattRead (conn : Option Nat) (handle : Nat)
  | connGetInfo (conn : Option Nat)
  | connParamUpdate (conn : Option Nat) (intervalMin intervalMax latency timeout : Nat)
  | disconnectReq (conn : Option Nat) (reason : Nat)
deriving DecidableEq

/-- toggle_color of main.c: write the currently selected table entry's
value to the color characteristic handle over default_conn, whatever
either of them currently is. -/
def toggle_color_request (st : AppState) : StackRequest :=
  .writeWithoutResponse st.default_conn st.color_attr_handle
    ((color_array.getD st.current_color_index ⟨0, ""⟩).color_value)

/-- read_battery_level of main.c: a single-handle read at
battery_level_value_handle over default_conn. -/
def read_battery_level_request (st : AppState) : StackRequest :=
  .gattRead st.default_conn st.battery_level_value_handle

/-- button_state_changed of main.c: four independent mask tests, run in
order in one invocation. No branch checks default_conn or the resolved
handles before acting. Returns the new globals and the stack requests
issued, in order. -/
def button_state_changed (st : AppState) (button_state has_changed : Nat) :
    AppState × List StackRequest :=
  let s1 :=
    if (has_changed &&& BUTTON_COLOR) ≠ 0 ∧ (button_state &&& BUTTON_COLOR) ≠ 0 then
      let st1 := { st with current_color_index := (st.current_color_index + 1) % COLOR_COUNT }
      (st1, [toggle_color_request st1])
    else (st, ([] : List StackRequest))
  let s2 :=
    if (has_changed &&& BUTTON_BATTERY_LEVEL) ≠ 0 ∧ (button_state &&& BUTTON_BATTERY_LEVEL) ≠ 0 then
      (s1.1, s1.2 ++ [read_battery_level_request s1.1])
    else s1
  let s3 :=
    if (has_changed &&& BUTTON_CONN_PARAMS) ≠ 0 ∧ (button_state &&& BUTTON_CONN_PARAMS) ≠ 0 then
      (s2.1, s2.2 ++ [.connGetInfo s2.1.default_conn,
                      .connParamUpdate s2.1.default_conn 6 6 0 400])
    else s2
  let s4 :=
    if (has_changed &&& BUTTON_DISCONNECT) ≠ 0 ∧ (button_state &&& BUTTON_DISCONNECT) ≠ 0 then
      (s3.1, s3.2 ++ [.disconnectReq s3.1.default_conn BT_HCI_ERR_REMOTE_USER_TERM_CONN])
    else s3
  s4

/-- One press of button 1 (RotateColor). -/
def press_color (st : AppState) : AppState × List StackRequest :=
  button_state_changed st BUTTON_COLOR BUTTON_COLOR

/-- The color values written by n successive RotateColor presses. -/
def color_write_values (st : AppState) : Nat → List Nat
  | 0 => []
  | Nat.succ n =>
    let r := press_color st
    (r.2.filterMap fun q =>
      match q with
      | .writeWithoutResponse _ _ v => some v
      | _ => none) ++ color_write_values r.1 n

/-- A representative operating-phase state: connected, handles resolved,
discovery parameters as phase 3 left them, cursor at index 0 (White) as
after boot. -/
def op_state : AppState :=
  { default_conn := some 1
    color_attr_handle := 21
    battery_level_value_handle := 25
    current_color_index := 0
    dp := ⟨BT_UUID_GATT_CCC, 26, 0xFFFF, BT_GATT_DISCOVER_DESCRIPTOR⟩
    sp := ⟨25, 27, BT_GATT_CCC_NOTIFY, true⟩ }

/-- A state in discovery phase 3: the current target UUID is the CCCD. -/
def c7_state : AppState :=
  { initial_state with dp := ⟨BT_UUID_GATT_CCC, 26, 0xFFFF, BT_GATT_DISCOVER_DESCRIPTOR⟩ }

/-! ## Control loop: the body of main's while(1) -/

/-- The environment outcomes one loop iteration can see: the immediate
result of the bt_gatt_discover call, whether sem_discovered arrived
within the 10 s bound, the immediate result of the recovery-branch
bt_conn_disconnect call, and whether sem_disconnected arrived within the
30 s safety-net bound (the code discards this last result). -/
structure LoopEnv where
  discoverStartErr : Int
  discoveredInTime : Bool
  disconnectErr : Int
  disconnectedIn30 : Bool
deriving DecidableEq

/-- How one iteration of the loop ends: fall through to the next iteration
(scanning restarts), or return 0 from main (process-level fault). -/
inductive LoopExit where
  | restart
  | fatalReturn
deriving DecidableEq

/-- What one loop iteration did after the connect wait: whether the
recovery disconnect was issued, whether the 30 s safety-net wait ran,
whether the indefinite operating-phase wait ran, and how the iteration
ended. -/
structure LoopOutcome where
  exit : LoopExit
  disconnectIssued : Bool
  waitedDisconnected30 : Bool
  waitedDisconnectedForever : Bool
deriving DecidableEq

/-- k_sem_take's timeout result (Zephyr: -EAGAIN). -/
def EAGAIN : Int := 11

/-- The body of main's while(1) after sem_connected is taken, from the
bt_gatt_discover call to the bottom of the loop (main.c lines 449-489).
err carries the discover result, then the 10 s sem_discovered take; the
success path blocks on sem_disconnected forever and leaves err = 0; the
error path issues a disconnect, returns 0 from main if that call itself
fails, and otherwise runs the 30 s safety-net wait and falls through
regardless of its outcome. -/
def main_loop_body (env : LoopEnv) : LoopOutcome :=
  let err1 := env.discoverStartErr
  if err1 ≠ 0 then
    if env.disconnectErr ≠ 0 then ⟨.fatalReturn, true, false, false⟩
    else ⟨.restart, true, true, false⟩
  else
    let err2 : Int := if env.discoveredInTime then 0 else -EAGAIN
    if err2 ≠ 0 then
      if env.disconnectErr ≠ 0 then ⟨.fatalReturn, true, false, false⟩
      else ⟨.restart, true, true, false⟩
    else ⟨.restart, false, false, true⟩

/-! ## Helper lemmas -/

/-- strncmp with a NUL-free left string over its full strlen decides list
prefix. -/
theorem strncmp_eq_zero_iff (t : List Nat) (h : ∀ c ∈ t, c ≠ 0) :
    ∀ s : List Nat, (strncmp t s (strlen t) = 0 ↔ t <+: s) := by
  induction t with
  | nil =>
    intro s
    simp [strlen, strncmp, List.nil_prefix]
  | cons c cs ih =>
    intro s
    have hc : c ≠ 0 := h c (by simp)
    have hcs : ∀ x ∈ cs, x ≠ 0 := fun x hx => h x (by simp [hx])
    have hlen : strlen (c :: cs) = (strlen cs) + 1 := by
      simp [strlen, List.takeWhile_cons, hc]
    rw [hlen]
    cases s with
    | nil =>
      have hcz : ((c : Int) - 0 ≠ 0) := by
        simpa using fun hcc => hc (by exact_mod_cast hcc)
      simp [strncmp, hc, hcz]
    | cons b bs =>
      by_cases hcb : c = b
      · subst hcb
        have := ih hcs bs
        simp [strncmp, hc, this, List.cons_prefix_cons]
      · have hdiff : ((c : Int) - (b : Int) ≠ 0) := by
          intro hcc
          exact hcb (by omega)
        simp [strncmp, hcb, hdiff, List.cons_prefix_cons]

/-- bt_data_parse from the zeroed accumulator extracts the first name field
of the record, truncated to NAME_LEN - 1 bytes, or leaves the accumulator
empty. -/
theorem bt_data_parse_eq_find (ad : List BtData) :
    bt_data_parse ad ⟨0, []⟩ =
      match ad.find? is_name_field with
      | none => ⟨0, []⟩
      | some d => ⟨min d.data.length (NAME_LEN - 1),
                   d.data.take (min d.data.length (NAME_LEN - 1))⟩ := by
  induction ad with
  | nil => rfl
  | cons d rest ih =>
    by_cases hd : is_name_field d
    · simp [bt_data_parse, data_cb, hd, List.find?]
    · simp only [bt_data_parse, data_cb, hd, Bool.false_eq_true, if_false, List.find?]
      simpa [hd] using ih

/-! ## The claims -/

/-- Claim C1: in the GATT discovery chain, when the color-setting
characteristic is matched, its value handle is recorded as the color
characteristic handle, the range start advances to just past the matched
attribute, the target UUID switches to Battery Level, and a
characteristic discovery request is issued; when the Battery Level
characteristic is matched, its value handle is recorded (also as the
notification source value handle), the range start advances by exactly 2
handles, the target UUID switches to the CCCD, and a descriptor
discovery request is issued — for every run of the callback in those two
phases. -/
theorem C1_discovery_chain (st : AppState) (a : GattAttr) (de se : Int) :
    (st.dp.uuid = BT_UUID_COLOR_SETTING →
      (discover_func st (some a) de se).st.color_attr_handle = a.value_handle ∧
      (discover_func st (some a) de se).st.dp.start_handle = a.handle + 1 ∧
      (discover_func st (some a) de se).st.dp.uuid = BT_UUID_BAS_BATTERY_LEVEL ∧
      (discover_func st (some a) de se).st.dp.ty = BT_GATT_DISCOVER_CHARACTERISTIC ∧
      (discover_func st (some a) de se).requests =
        [GattRequest.discover (discover_func st (some a) de se).st.dp]) ∧
    (st.dp.uuid = BT_UUID_BAS_BATTERY_LEVEL →
      (discover_func st (some a) de se).st.battery_level_value_handle = a.value_handle ∧
      (discover_func st (some a) de se).st.sp.value_handle = a.value_handle ∧
      (discover_func st (some a) de se).st.dp.start_handle = a.handle + 2 ∧
      (discover_func st (some a) de se).st.dp.uuid = BT_UUID_GATT_CCC ∧
      (discover_func st (some a) de se).st.dp.ty = BT_GATT_DISCOVER_DESCRIPTOR ∧
      (discover_func st (some a) de se).requests =
        [GattRequest.discover (discover_func st (some a) de se).st.dp]) := by
  constructor
  · intro h
    simp [discover_func, h, BT_UUID_COLOR_SETTING]
  · intro h
    simp [discover_func, h, BT_UUID_COLOR_SETTING, BT_UUID_BAS_BATTERY_LEVEL]

/-- Claim C2: for every received advertisement record, a match is declared
if and only if a device name field (shortened or complete) is present, the
report kind is connectable advertising or scan response, no connection is
pending or active, and the extracted (truncated) name has the configured
target name as an exact prefix. -/
theorem C2_match_iff (hasConn : Bool) (ty : Nat) (ad : List BtData) :
    device_found hasConn ty ad = ScanAction.matchConnect ↔
      ((∃ d ∈ ad, d.ty = BT_DATA_NAME_SHORTENED ∨ d.ty = BT_DATA_NAME_COMPLETE) ∧
       (ty = BT_GAP_ADV_TYPE_ADV_IND ∨ ty = BT_GAP_ADV_TYPE_SCAN_RSP) ∧
       hasConn = false ∧
       PERIPHERAL_NAME <+: (bt_data_parse ad ⟨0, []⟩).name) := by
  have hz : ∀ c ∈ PERIPHERAL_NAME, c ≠ 0 := by decide
  have hne : PERIPHERAL_NAME ≠ [] := by decide
  have hname : (∃ d ∈ ad, d.ty = BT_DATA_NAME_SHORTENED ∨ d.ty = BT_DATA_NAME_COMPLETE)
      ↔ (ad.find? is_name_field).isSome := by
    rw [List.find?_isSome]
    constructor
    · rintro ⟨d, hd, hty⟩
      exact ⟨d, hd, by simp [is_name_field, hty]⟩
    · rintro ⟨d, hd, hty⟩
      refine ⟨d, hd, ?_⟩
      simpa [is_name_field] using hty
  rw [device_found, hname, bt_data_parse_eq_find]
  cases hfind : ad.find? is_name_field with
  | none =>
    simp only [hfind, Option.isSome_none, Bool.false_eq_true]
    have : ¬ (PERIPHERAL_NAME <+: ([] : List Nat)) := by
      simpa [List.prefix_nil] using hne
    by_cases h1 : hasConn
    · simp [h1]
    · by_cases h2 : ty ≠ BT_GAP_ADV_TYPE_ADV_IND ∧ ty ≠ BT_GAP_ADV_TYPE_SCAN_RSP
      · simp_all
      · simp_all
  | some d =>
    simp only [hfind, Option.isSome_some]
    by_cases h1 : hasConn
    · simp [h1]
    · by_cases h2 : ty ≠ BT_GAP_ADV_TYPE_ADV_IND ∧ ty ≠ BT_GAP_ADV_TYPE_SCAN_RSP
      · have hty2 : ¬ (ty = BT_GAP_ADV_TYPE_ADV_IND ∨ ty = BT_GAP_ADV_TYPE_SCAN_RSP) := by
          tauto
        simp [h1, h2, hty2]
      · have hty : ty = BT_GAP_ADV_TYPE_ADV_IND ∨ ty = BT_GAP_ADV_TYPE_SCAN_RSP := by
          tauto
        by_cases hp : PERIPHERAL_NAME <+: d.data.take (min d.data.length (NAME_LEN - 1))
        · have h3 : min d.data.length (NAME_LEN - 1) ≠ 0 := by
            intro h0
            rw [h0] at hp
            simp only [List.take_zero, List.prefix_nil] at hp
            exact hne hp
          have hs : strncmp PERIPHERAL_NAME
              (d.data.take (min d.data.length (NAME_LEN - 1))) (strlen PERIPHERAL_NAME) = 0 :=
            (strncmp_eq_zero_iff PERIPHERAL_NAME hz _).mpr hp
          simp [h1, h2, h3, hty, hp, hs]
        · by_cases h3 : min d.data.length (NAME_LEN - 1) = 0
          · simp [h1, h2, h3, hp, hne]
          · have hs : strncmp PERIPHERAL_NAME
                (d.data.take (min d.data.length (NAME_LEN - 1))) (strlen PERIPHERAL_NAME) ≠ 0 := by
              intro h0
              exact hp ((strncmp_eq_zero_iff PERIPHERAL_NAME hz _).mp h0)
            simp [h1, h2, h3, hty, hp, hs]

/-- Claim C3 counterexample: with connection 1 pending, a connected event
for the unrelated connection 2 carrying failure status 8 releases the
pending connection's ownership (default_conn becomes NULL) and restarts
scanning, and a remote-info event for the unrelated connection 2 raises
the Connected signal — so an event for an unrelated connection is not
ignored as the claim states. -/
theorem C3_counterexample :
    (connected (some 1) 2 8).default_conn = none ∧
    (connected (some 1) 2 8).scanRestarted = true ∧
    (remote_info_available_cb (some 1) 2).connectedSignal = true := by
  decide

/-- Claim C3 as amended: the raw connect callback never raises the
Connected signal; the signal is raised by the remote-info-ready reaction,
unconditionally for every remote-info event, whichever connection it
reports. A connected event with success status for an unrelated
connection is ignored, but a connected event with failure status releases
the pending connection's ownership and restarts scanning regardless of
which connection it is for. -/
theorem C3_amended (default_conn : Option Nat) (conn err : Nat) :
    ((connected default_conn conn err).connectedSignal = false) ∧
    (err = 0 → some conn ≠ default_conn →
      connected default_conn conn err = ⟨default_conn, false, false⟩) ∧
    (err = 0 → some conn = default_conn →
      connected default_conn conn err = ⟨default_conn, false, false⟩) ∧
    (err ≠ 0 → connected default_conn conn err = ⟨none, false, true⟩) ∧
    (remote_info_available_cb default_conn conn).connectedSignal = true ∧
    (remote_info_available_cb default_conn conn).default_conn = default_conn := by
  refine ⟨?_, ?_, ?_, ?_, rfl, rfl⟩
  · by_cases h : err = 0 <;> by_cases h2 : some conn = default_conn <;>
      simp [connected, h, h2]
  · intro h h2
    simp [connected, h, h2]
  · intro h h2
    simp [connected, h, h2]
  · intro h
    simp [connected, h]

/-- Claim C4 counterexample: a disconnect of the active connection in the
operating phase releases ownership and raises the Disconnected signal,
but leaves the color characteristic handle, the battery characteristic
handle, the notify CCC and value handles and the discovery parameters
exactly as they were — nothing is cleared, contrary to the claim. -/
theorem C4_counterexample :
    (disconnected op_state 1 19).disconnectedSignal = true ∧
    (disconnected op_state 1 19).st.default_conn = none ∧
    (disconnected op_state 1 19).st.color_attr_handle = 21 ∧
    (disconnected op_state 1 19).st.battery_level_value_handle = 25 ∧
    (disconnected op_state 1 19).st.sp.ccc_handle = 27 ∧
    (disconnected op_state 1 19).st.sp.value_handle = 25 ∧
    (disconnected op_state 1 19).st.dp.uuid = BT_UUID_GATT_CCC := by
  decide

/-- Claim C4 as amended: for every disconnect of the active connection, at
any phase, the disconnect reaction releases connection ownership and
raises the Disconnected signal so the Control Loop re-enters scanning,
but it leaves the ResolvedHandles fields (color characteristic handle,
battery characteristic handle, notify CCC handle) and the discovery and
subscription parameters unchanged rather than clearing them; a disconnect
event for a connection that is not the active one is ignored. -/
theorem C4_amended (st : AppState) (conn reason : Nat) :
    (some conn ≠ st.default_conn → disconnected st conn reason = ⟨st, false⟩) ∧
    (some conn = st.default_conn →
      (disconnected st conn reason).disconnectedSignal = true ∧
      (disconnected st conn reason).st.default_conn = none ∧
      (disconnected st conn reason).st.color_attr_handle = st.color_attr_handle ∧
      (disconnected st conn reason).st.battery_level_value_handle =
        st.battery_level_value_handle ∧
      (disconnected st conn reason).st.sp = st.sp ∧
      (disconnected st conn reason).st.dp = st.dp ∧
      (disconnected st conn reason).st.current_color_index = st.current_color_index) := by
  constructor
  · intro h
    simp [disconnected, h]
  · intro h
    simp [disconnected, h]

/-- Claim C5 counterexample: the handler advances the cursor before
writing, so starting from index 0 (White) the first four RotateColor
triggers write Red, Green, Blue, White — not White, Red, Green, Blue as
the claim's scenario states — and the fifth writes Red, not White. -/
theorem C5_counterexample :
    color_write_values op_state 5 =
      [COLOR_RED, COLOR_GREEN, COLOR_BLUE, COLOR_WHITE, COLOR_RED] ∧
    color_write_values op_state 4 ≠
      [COLOR_WHITE, COLOR_RED, COLOR_GREEN, COLOR_BLUE] := by
  decide

/-- Claim C5 as amended: each RotateColor trigger advances
current_color_index by one modulo 4 (wrapping from 3 to 0) and then
writes the newly selected color's encoded value; starting from index 0,
four RotateColor triggers produce the write sequence Red, Green, Blue,
White, and a fifth trigger writes Red again. -/
theorem C5_amended (st : AppState) :
    (press_color st).1.current_color_index = (st.current_color_index + 1) % COLOR_COUNT ∧
    (st.current_color_index = 3 → (press_color st).1.current_color_index = 0) ∧
    (press_color st).2 =
      [StackRequest.writeWithoutResponse st.default_conn st.color_attr_handle
        ((color_array.getD ((st.current_color_index + 1) % COLOR_COUNT) ⟨0, ""⟩).color_value)] ∧
    color_write_values op_state 5 =
      [COLOR_RED, COLOR_GREEN, COLOR_BLUE, COLOR_WHITE, COLOR_RED] := by
  refine ⟨?_, ?_, ?_, by decide⟩
  · simp [press_color, button_state_changed, BUTTON_COLOR, BUTTON_BATTERY_LEVEL,
      BUTTON_CONN_PARAMS, BUTTON_DISCONNECT]
  · intro h
    simp [press_color, button_state_changed, BUTTON_COLOR, BUTTON_BATTERY_LEVEL,
      BUTTON_CONN_PARAMS, BUTTON_DISCONNECT, h, COLOR_COUNT]
  · simp [press_color, button_state_changed, BUTTON_COLOR, BUTTON_BATTERY_LEVEL,
      BUTTON_CONN_PARAMS, BUTTON_DISCONNECT, toggle_color_request]

/-- Claim C6, evaluated at the failing input: in the boot state — no
active connection (default_conn NULL) and unpopulated ResolvedHandles —
each of the four triggers still acts: RotateColor advances
current_color_index and issues a write over the NULL connection to handle
0, ReadBatteryLevel issues a read over the NULL connection,
RenegotiateConnectionParameters queries and updates parameters on the
NULL connection, and Disconnect issues a disconnect of the NULL
connection; none of them is the no-op the claim states. -/
theorem C6_unguarded_triggers :
    (button_state_changed initial_state BUTTON_COLOR BUTTON_COLOR).1.current_color_index = 1 ∧
    (button_state_changed initial_state BUTTON_COLOR BUTTON_COLOR).2 =
      [StackRequest.writeWithoutResponse none 0 COLOR_RED] ∧
    (button_state_changed initial_state BUTTON_BATTERY_LEVEL BUTTON_BATTERY_LEVEL).2 =
      [StackRequest.gattRead none 0] ∧
    (button_state_changed initial_state BUTTON_CONN_PARAMS BUTTON_CONN_PARAMS).2 =
      [StackRequest.connGetInfo none, StackRequest.connParamUpdate none 6 6 0 400] ∧
    (button_state_changed initial_state BUTTON_DISCONNECT BUTTON_DISCONNECT).2 =
      [StackRequest.disconnectReq none BT_HCI_ERR_REMOTE_USER_TERM_CONN] := by
  decide

/-- Claim C7: in the final discovery phase (the target UUID is the CCCD),
for every outcome of the subscribe call the phase completes: the
Discovered signal is raised, the callback returns stop, the only request
issued is the subscribe request (no further discovery request), and a
subscribe failure is logged exactly when it is a real failure other than
the already-subscribed condition. -/
theorem C7_cccd_phase (st : AppState) (a : GattAttr) (de se : Int)
    (h : st.dp.uuid = BT_UUID_GATT_CCC) :
    (discover_func st (some a) de se).discoveredSignal = true ∧
    (discover_func st (some a) de se).iter = GattIter.stop ∧
    (∀ p, GattRequest.discover p ∉ (discover_func st (some a) de se).requests) ∧
    (discover_func st (some a) de se).requests =
      [GattRequest.subscribe ((discover_func st (some a) de se).st.sp)] ∧
    ((discover_func st (some a) de se).subscribeFailureLogged = true ↔
      se ≠ 0 ∧ se ≠ -EALREADY) := by
  simp [discover_func, h, BT_UUID_GATT_CCC, BT_UUID_COLOR_SETTING,
    BT_UUID_BAS_BATTERY_LEVEL]

/-- Claim C7 witness: the CCCD phase at a concrete state and attribute,
with the subscribe call failing with -22 (not already-subscribed). -/
theorem C7_witness :
    (discover_func c7_state (some ⟨27, 0⟩) 0 (-22)).discoveredSignal = true ∧
    (discover_func c7_state (some ⟨27, 0⟩) 0 (-22)).iter = GattIter.stop ∧
    (∀ p, GattRequest.discover p ∉ (discover_func c7_state (some ⟨27, 0⟩) 0 (-22)).requests) ∧
    (discover_func c7_state (some ⟨27, 0⟩) 0 (-22)).requests =
      [GattRequest.subscribe ((discover_func c7_state (some ⟨27, 0⟩) 0 (-22)).st.sp)] ∧
    ((discover_func c7_state (some ⟨27, 0⟩) 0 (-22)).subscribeFailureLogged = true ↔
      (-22 : Int) ≠ 0 ∧ (-22 : Int) ≠ -EALREADY) :=
  C7_cccd_phase c7_state ⟨27, 0⟩ 0 (-22) (by decide)

/-- Claim C8: for every notification delivered on the subscribed value
handle, an absent (empty) payload always transitions the subscription to
inactive — the stored value handle is cleared and delivery stops — a
non-empty payload never changes the subscription state and delivery
continues, and the only way the handler deactivates an active
subscription is the absent payload. -/
theorem C8_notify (sp : SubscribeParams) (len : Nat) (payload : Option (List Nat)) :
    (payload = none →
      (notify_func sp payload len).sp.value_handle = 0 ∧
      (notify_func sp payload len).iter = GattIter.stop) ∧
    (∀ l, payload = some l →
      (notify_func sp payload len).sp = sp ∧
      (notify_func sp payload len).iter = GattIter.cont) ∧
    (sp.value_handle ≠ 0 → (notify_func sp payload len).sp.value_handle = 0 →
      payload = none) := by
  refine ⟨?_, ?_, ?_⟩
  · rintro rfl
    simp [notify_func]
  · rintro l rfl
    simp [notify_func]
  · intro h1 h2
    cases payload with
    | none => rfl
    | some l => simp [notify_func] at h2; exact absurd h2 h1

/-- Claim C9: in the loop body, the recovery branch (discovery failing to
start, or the Discovered signal missing the 10 s bound) issues a
disconnect request and, when that call succeeds, runs the 30 s safety-net
wait on Disconnected and restarts the cycle; the outcome of the safety
wait is never consulted; the only fatal exit of the loop is the recovery
disconnect call itself failing; and the success path restarts without any
recovery action. -/
theorem C9_timeout_recovery (env : LoopEnv) :
    ((main_loop_body env).exit = LoopExit.fatalReturn ↔
      ((env.discoverStartErr ≠ 0 ∨ env.discoveredInTime = false) ∧
        env.disconnectErr ≠ 0)) ∧
    ((env.discoverStartErr ≠ 0 ∨ env.discoveredInTime = false) →
      (main_loop_body env).disconnectIssued = true) ∧
    ((env.discoverStartErr ≠ 0 ∨ env.discoveredInTime = false) →
      env.disconnectErr = 0 →
      (main_loop_body env).waitedDisconnected30 = true ∧
      (main_loop_body env).exit = LoopExit.restart) ∧
    (∀ b, main_loop_body { env with disconnectedIn30 := b } = main_loop_body env) ∧
    (env.discoverStartErr = 0 → env.discoveredInTime = true →
      (main_loop_body env).exit = LoopExit.restart ∧
      (main_loop_body env).disconnectIssued = false ∧
      (main_loop_body env).waitedDisconnectedForever = true) := by
  obtain ⟨d1, d2, d3, d4⟩ := env
  by_cases h1 : d1 = 0 <;> by_cases h3 : d3 = 0 <;> cases d2 <;>
    simp [main_loop_body, EAGAIN, h1, h3]

/-- Claim C10: the battery read completion callback dereferences the
delivered payload unconditionally — its behaviour does not depend on the
completion's error code, the dereference happens for every completion,
and the byte read is well-defined exactly when the payload is non-null
and carries at least one byte — while the notification callback performs
no dereference in its null-payload branch. -/
theorem C10_unguarded_battery_read (err err2 : Nat) (payload : Option (List Nat))
    (len len2 : Nat) :
    (battery_read_func err payload len = battery_read_func err2 payload len2) ∧
    (battery_read_func err payload len).dereffed = true ∧
    ((battery_read_func err payload len).surfaced.isSome = true ↔
      ∃ l, payload = some l ∧ l ≠ []) ∧
    (battery_read_func err payload len).iter = GattIter.stop ∧
    (∀ sp, (notify_func sp none len).dereffed = false) := by
  refine ⟨rfl, rfl, ?_, rfl, fun sp => rfl⟩
  cases payload with
  | none => simp [battery_read_func]
  | some l =>
    cases l with
    | nil => simp [battery_read_func]
    | cons b bs => simp [battery_read_func]

end PlaybulbBle
